import Mathlib

/-!
Shallow embedding of the `oscar_stripe_sca` Django/Oscar payment plugin
(`facade.py`, `mixins.py`, `views.py`, `constants.py`, `exceptions.py`),
together with theorems about its behaviour.

Conventions of the embedding:
* Python `Decimal` values are modelled as `ℚ`; `Decimal.quantize` with
  `ROUND_HALF_UP` is modelled by `quantizeHalfUp`, and Python `int()`
  (truncation toward zero) by `intTruncate`.
* Python `None` becomes `none`; a value that may be `None` has an `Option`
  type.  Python truthiness of an optional string (`None` and `""` are
  falsy) is `truthyOptStr`.
* Exceptions are modelled with `Except PyError`.
* The Django settings module (absent as code: all values are
  environment-derived configuration) is a `Settings` record passed to each
  function that reads `settings.*`.
* Django's `reverse_lazy` (URL routing, owned by the host framework) is an
  abstract parameter `rev : String → List (String × Nat) → String` mapping
  a view name and keyword arguments to a path.
* Network calls into the Stripe SDK are abstract parameters as well
  (`sdk`, `StripeBackend`); the plugin's own logic around them is embedded
  faithfully.
-/

namespace OscarStripeSCA

/-- Python exceptions that the embedded code can raise. -/
inductive PyError where
  | keyError
  | attributeError
  | valueError
  | signatureVerificationError
  | unableToPlaceOrder
  | multipleTaxCodesInBasket
  | paymentCaptureError (msg : String)
  | exception (msg : String)
  deriving DecidableEq, Repr

/-- Truthiness of an optional Python string: `None` and `""` are falsy. -/
def truthyOptStr : Option String → Bool
  | none => false
  | some s => s != ""

/-- The environment-derived settings the plugin reads (`settings.*`). -/
structure Settings where
  STRIPE_RETURN_URL_BASE : String
  STRIPE_CANCEL_URL : Option String
  STRIPE_ORDER_CONFIRMATION_URL : Option String
  STRIPE_PAYMENT_STATUS_URL : Option String
  STRIPE_WAITING_FOR_PAYMENT_URL : Option String
  STRIPE_ORDER_PREVIEW_URL : Option String
  STRIPE_BYPASS_ORDER_PREVIEW : Bool
  STRIPE_WAIT_FOR_PAYMENT_CONFIRMATION : Bool
  STRIPE_ENABLE_TAX_COMPUTATION : Bool
  STRIPE_ENABLE_INVOICE_GENERATION : Bool
  STRIPE_INVOICE_DISPLAY_TAX_AMOUNTS : Bool
  STRIPE_USE_PRICES_API : Bool
  STRIPE_COMPRESS_TO_ONE_LINE_ITEM : Bool
  STRIPE_DEFAULT_PRODUCT_TAX_CODE : Option String
  STRIPE_DEFAULT_SHIPPING_TAX_CODE : Option String
  STRIPE_WEBHOOK_ENDPOINT_SECRET : Option String
  STRIPE_INVOICE_DESCRIPTION : Option String
  STRIPE_INVOICE_FOOTER : Option String
  deriving DecidableEq, Repr

/- ----- constants.py ----- -/

def SESSION_MODE_PAYMENT : String := "payment"

def PAYMENT_EVENT_PURCHASE : String := "Purchase"

def PAYMENT_METHOD_STRIPE : String := "Stripe"

def PAYMENT_METHOD_TYPE_CARD : String := "card"

def CAPTURE_METHOD_MANUAL : String := "manual"

def CAPTURE_METHOD_AUTOMATIC : String := "automatic"

/-- `constants.ZERO_DECIMAL_CURRENCIES`. -/
def ZERO_DECIMAL_CURRENCIES : List String :=
  ["BIF", "CLP", "DJF", "GNF", "JPY", "KMF", "KRW", "MGA",
   "PYG", "RWF", "VND", "VUV", "XAF", "XOF", "XPF"]

/- ----- Decimal arithmetic (facade._convert_to_cents) ----- -/

/-- Round a rational to the nearest integer, ties away from zero: the
integer produced by `Decimal.quantize(D("1"), ROUND_HALF_UP)`. -/
def roundHalfUpInt (q : ℚ) : ℤ :=
  if 0 ≤ q then ⌊q + 1 / 2⌋ else -⌊-q + 1 / 2⌋

/-- `Decimal.quantize` to `exp` decimal places with `ROUND_HALF_UP`,
as an exact rational. -/
def quantizeHalfUp (exp : ℕ) (q : ℚ) : ℚ :=
  (roundHalfUpInt (q * 10 ^ exp) : ℚ) / 10 ^ exp

/-- Python `int()` on an exact `Decimal`: truncation toward zero. -/
def intTruncate (q : ℚ) : ℤ :=
  if 0 ≤ q then ⌊q⌋ else -⌊-q⌋

/-- `Facade._convert_to_cents(price, currency)`:
`int(D(str(price)).quantize(D("1"), ROUND_HALF_UP))` for zero-decimal
currencies, `int(D(str(price)).quantize(D("0.01"), ROUND_HALF_UP) * 100)`
otherwise. -/
def convert_to_cents (price : ℚ) (currency : String) : ℤ :=
  if currency.toUpper ∈ ZERO_DECIMAL_CURRENCIES then
    intTruncate (quantizeHalfUp 0 price)
  else
    intTruncate (quantizeHalfUp 2 price * 100)

/- ----- facade._choose_tax_code ----- -/

/-- `facade.PaymentItem` (a plain record of keyword arguments). -/
structure PaymentItem where
  title : String
  price_incl_tax : ℚ
  price_currency : String
  quantity : ℕ
  tax_code : Option String
  deriving DecidableEq, Repr

/-- `Facade._get_default_product_tax_code`. -/
def get_default_product_tax_code (s : Settings) : Option String :=
  s.STRIPE_DEFAULT_PRODUCT_TAX_CODE

/-- `Facade._choose_tax_code(raw_line_items)`: branch on the number of
distinct tax codes (`list(set(...))` is modelled by `List.dedup`; with
zero or one distinct codes the set's order is irrelevant). -/
def choose_tax_code (s : Settings) (raw_line_items : List PaymentItem) :
    Except PyError (Option String) :=
  match (raw_line_items.map PaymentItem.tax_code).dedup with
  | [] => .ok (get_default_product_tax_code s)
  | [c] => .ok c
  | _ => .error .multipleTaxCodesInBasket

/- ----- basket / shipping data owned by the host framework ----- -/

structure Product where
  title : String
  deriving DecidableEq, Repr

/-- One basket line; `price_breakdown` models
`line.get_price_breakdown()`, a list of `(price_incl_tax,
price_excl_tax, quantity)` triples. -/
structure BasketLine where
  product : Product
  price_currency : String
  price_breakdown : List (ℚ × ℚ × ℕ)
  deriving DecidableEq, Repr

/-- A voucher discount entry of `basket.grouped_voucher_discounts`; the
`Decimal` discount is modelled by its display string, since the code
only ever formats it into a string. -/
structure Voucher where
  voucher_name : String
  discount_display : String
  deriving DecidableEq, Repr

structure Basket where
  id : ℕ
  status : String
  all_lines : List BasketLine
  shipping_required : Bool
  grouped_voucher_discounts : List Voucher
  deriving DecidableEq, Repr

/-- `oscar.core.prices.Price`. -/
structure OscarPrice where
  currency : String
  excl_tax : ℚ
  incl_tax : ℚ
  deriving DecidableEq, Repr

/-- A shipping method; `calculate(basket)` is modelled by the fixed
`charge` the method would compute for the basket at hand. -/
structure ShippingMethod where
  code : String
  method_name : String
  charge : OscarPrice
  deriving DecidableEq, Repr

/-- The attributes `Facade.__init__` sets on the instance (abstract
handles; no method below ever writes them). -/
structure FacadeState where
  stripe_client : ℕ
  logger : ℕ
  deriving DecidableEq, Repr

/- ----- facade URL helpers ----- -/

/-- Python `base_url or default` (`None` and `""` are falsy). -/
def strOrDefault (base_url : Option String) (default : String) : String :=
  match base_url with
  | none => default
  | some b => if b = "" then default else b

/-- `Facade._get_checkout_step_url`: the override setting if truthy,
else `STRIPE_RETURN_URL_BASE + reverse_lazy("checkout:<step>",
kwargs)`. `rev` is the abstract Django `reverse_lazy`. -/
def get_checkout_step_url (s : Settings) (rev : String → List (String × ℕ) → String)
    (base_url : Option String) (step_name : String) (kwargs : List (String × ℕ)) :
    String :=
  strOrDefault base_url (s.STRIPE_RETURN_URL_BASE ++ rev ("checkout:" ++ step_name) kwargs)

/-- `Facade._get_cancel_url`. -/
def get_cancel_url (s : Settings) (rev : String → List (String × ℕ) → String)
    (basket : Basket) : String :=
  get_checkout_step_url s rev s.STRIPE_CANCEL_URL "stripe-cancel" [("basket_id", basket.id)]

/-- `Facade._get_order_confirmation_url`. -/
def get_order_confirmation_url (s : Settings)
    (rev : String → List (String × ℕ) → String) : String :=
  get_checkout_step_url s rev s.STRIPE_ORDER_CONFIRMATION_URL "thank-you" []

/-- `Facade._get_payment_status_url`. -/
def get_payment_status_url (s : Settings)
    (rev : String → List (String × ℕ) → String) : String :=
  get_checkout_step_url s rev s.STRIPE_PAYMENT_STATUS_URL "stripe-payment-status" []

/-- `Facade._get_waiting_for_payment_url`. -/
def get_waiting_for_payment_url (s : Settings)
    (rev : String → List (String × ℕ) → String) : String :=
  get_checkout_step_url s rev s.STRIPE_WAITING_FOR_PAYMENT_URL "stripe-waiting" []

/-- `Facade._get_order_preview_url`. -/
def get_order_preview_url (s : Settings) (rev : String → List (String × ℕ) → String)
    (basket : Basket) : String :=
  get_checkout_step_url s rev s.STRIPE_ORDER_PREVIEW_URL "stripe-preview"
    [("basket_id", basket.id)]

/-- `Facade._get_success_url`. -/
def get_success_url (s : Settings) (rev : String → List (String × ℕ) → String)
    (basket : Basket) : String :=
  if ¬ s.STRIPE_BYPASS_ORDER_PREVIEW then get_order_preview_url s rev basket
  else if s.STRIPE_WAIT_FOR_PAYMENT_CONFIRMATION then get_waiting_for_payment_url s rev
  else get_order_confirmation_url s rev

/-- `Facade._get_capture_method`. -/
def get_capture_method (s : Settings) : String :=
  if s.STRIPE_BYPASS_ORDER_PREVIEW then CAPTURE_METHOD_AUTOMATIC
  else CAPTURE_METHOD_MANUAL

/-- `Facade._get_session_mode`. -/
def get_session_mode : String := SESSION_MODE_PAYMENT

/- ----- facade line-item translation ----- -/

/-- The dict built by `Facade._prepare_line_item`: the Prices-API shape
when `STRIPE_USE_PRICES_API` is set, the legacy shape otherwise. -/
inductive PreparedLineItem where
  | pricesAPI (product_name : String) (tax_code : Option String) (currency : String)
      (unit_amount : ℤ) (quantity : ℕ)
  | legacy (product_name : String) (amount : ℤ) (currency : String) (quantity : ℕ)
  deriving DecidableEq, Repr

/-- `Facade._prepare_line_item(name, amount, currency, quantity,
tax_code)`; the tax code is attached only when truthy and
`STRIPE_ENABLE_TAX_COMPUTATION` is set. -/
def prepare_line_item (s : Settings) (item_name : String) (amount : ℤ)
    (currency : String) (quantity : ℕ) (tax_code : Option String) :
    PreparedLineItem :=
  if s.STRIPE_USE_PRICES_API then
    .pricesAPI item_name
      (if truthyOptStr tax_code ∧ s.STRIPE_ENABLE_TAX_COMPUTATION then tax_code else none)
      currency amount quantity
  else
    .legacy item_name amount currency quantity

/-- `Facade.prepare_line_items(raw_line_items, order_total)`.  In the
compressed branch the chosen tax code is passed on; in the per-item
branch the source calls `_prepare_line_item` without a tax code. -/
def prepare_line_items (s : Settings) (self : FacadeState)
    (raw_line_items : List PaymentItem) (order_total : OscarPrice) :
    FacadeState × Except PyError (List PreparedLineItem) :=
  (self,
    if s.STRIPE_COMPRESS_TO_ONE_LINE_ITEM then
      let compressed_name := String.intercalate ", "
        (raw_line_items.map fun i => toString i.quantity ++ "x" ++ i.title)
      let amount := convert_to_cents order_total.incl_tax order_total.currency
      match choose_tax_code s raw_line_items with
      | .error e => .error e
      | .ok tax_code =>
        .ok [prepare_line_item s compressed_name amount order_total.currency 1 tax_code]
    else
      .ok (raw_line_items.map fun i =>
        prepare_line_item s i.title
          (convert_to_cents i.price_incl_tax i.price_currency)
          i.price_currency i.quantity none))

/- ----- facade session metadata and parameters ----- -/

/-- The dict built by `Facade.build_session_metadata` (the base
`_get_extra_session_metadata` adds nothing). -/
structure SessionMetadata where
  scs : String
  basket_id : ℕ
  shipping_method : String
  discounts : String
  deriving DecidableEq, Repr

/-- `Facade._get_discount_metadata(basket)`. -/
def get_discount_metadata (basket : Basket) : String :=
  String.intercalate ", "
    (basket.grouped_voucher_discounts.map fun v =>
      v.voucher_name ++ " (" ++ v.discount_display ++ ")")

/-- `Facade.build_session_metadata(basket, shipping_method,
session_line_items)`.  The facade instance is threaded through to show
no attribute of it is written. -/
def build_session_metadata (self : FacadeState) (basket : Basket)
    (shipping_method : ShippingMethod) (_session_line_items : List PreparedLineItem) :
    FacadeState × SessionMetadata :=
  (self,
    { scs := "oscar"
      basket_id := basket.id
      shipping_method := shipping_method.code
      discounts := get_discount_metadata basket })

/-- The `invoice_data` dict of `Facade._get_invoice_data` (every base
hook returns a constant or a settings value). -/
structure InvoiceData where
  account_tax_ids : Option String
  custom_fields : Option String
  description : Option String
  footer : Option String
  issuer : Option String
  metadata : Option SessionMetadata
  rendering_amount_tax_display : String
  deriving DecidableEq, Repr

/-- `Facade._get_invoice_data` composed from the `_get_invoice_*`
hooks. -/
def get_invoice_data (s : Settings) : InvoiceData :=
  { account_tax_ids := none
    custom_fields := none
    description := s.STRIPE_INVOICE_DESCRIPTION
    footer := s.STRIPE_INVOICE_FOOTER
    issuer := none
    metadata := none
    rendering_amount_tax_display :=
      if s.STRIPE_INVOICE_DISPLAY_TAX_AMOUNTS then "include_inclusive_tax"
      else "exclude_tax" }

/-- The dict built by `Facade.build_session_params`; the optional keys
added by the tax/invoice blocks are `Option` fields (`none` when the
key is absent), and the base `_get_extra_session_params` adds
nothing. -/
structure SessionParams where
  mode : String
  customer_email : String
  payment_method_types : List String
  line_items : List PreparedLineItem
  metadata : SessionMetadata
  success_url : String
  cancel_url : String
  pi_capture_method : String
  pi_metadata : SessionMetadata
  automatic_tax_enabled : Option Bool
  invoice_creation : Option InvoiceData
  deriving DecidableEq, Repr

/-- `Facade.build_session_params(basket, customer_email,
session_line_items, session_metadata)`. -/
def build_session_params (s : Settings) (rev : String → List (String × ℕ) → String)
    (self : FacadeState) (basket : Basket) (customer_email : String)
    (session_line_items : List PreparedLineItem) (session_metadata : SessionMetadata) :
    FacadeState × SessionParams :=
  (self,
    { mode := get_session_mode
      customer_email := customer_email
      payment_method_types := [PAYMENT_METHOD_TYPE_CARD]
      line_items := session_line_items
      metadata := session_metadata
      success_url := get_success_url s rev basket
      cancel_url := get_cancel_url s rev basket
      pi_capture_method := get_capture_method s
      pi_metadata := session_metadata
      automatic_tax_enabled :=
        if s.STRIPE_ENABLE_TAX_COMPUTATION then some true else none
      invoice_creation :=
        if s.STRIPE_ENABLE_INVOICE_GENERATION then some (get_invoice_data s) else none })

/- ----- facade raw line items (get_raw_line_items) ----- -/

/-- `Facade._get_shipping_tax_code`. -/
def get_shipping_tax_code (s : Settings) : Option String :=
  s.STRIPE_DEFAULT_SHIPPING_TAX_CODE

/-- `Facade._get_product_tax_code(product)` (the base hook ignores the
product and returns the default setting). -/
def get_product_tax_code (s : Settings) (_product : Product) : Option String :=
  s.STRIPE_DEFAULT_PRODUCT_TAX_CODE

/-- `Facade.get_raw_line_items(basket, shipping_method)`: one
`PaymentItem` per price-breakdown entry of every line; then, when the
basket requires shipping and a shipping method was passed, the source
evaluates `self.shipping_method.name` — but `Facade.__init__` never
sets a `shipping_method` attribute on the instance, so that attribute
access raises `AttributeError` instead of appending the shipping
item. -/
def get_raw_line_items (s : Settings) (basket : Basket)
    (shipping_method : Option ShippingMethod) : Except PyError (List PaymentItem) :=
  let raw_line_items := basket.all_lines.flatMap fun line =>
    line.price_breakdown.map fun prices =>
      { title := line.product.title
        price_incl_tax := prices.1
        price_currency := line.price_currency
        quantity := prices.2.2
        tax_code := get_product_tax_code s line.product }
  if basket.shipping_required && shipping_method.isSome then
    .error .attributeError
  else
    .ok raw_line_items

/- ----- payment recording and capture (mixins.py, facade.py) ----- -/

/-- The fields `StripePaymentMixin.add_payment_details` sets on the new
`PaymentSource`. -/
structure PaymentSourceData where
  source_type : String
  amount_allocated : ℚ
  amount_debited : ℚ
  currency : String
  reference : String
  deriving DecidableEq, Repr

/-- The `PaymentSource` that `add_payment_details` constructs. -/
def mkPaymentSource (order_total : OscarPrice) (payment_intent_id : String) :
    PaymentSourceData :=
  { source_type := PAYMENT_METHOD_STRIPE
    amount_allocated := order_total.incl_tax
    amount_debited := order_total.incl_tax
    currency := order_total.currency
    reference := payment_intent_id }

/-- Effects performed while handling a payment, in program order. -/
inductive PayAction where
  | capturePaymentIntent (payment_intent_id : String)
  | addPaymentSource (source : PaymentSourceData)
  | addPaymentEvent (event_type_name : String) (amount : ℚ) (reference : String)
  deriving DecidableEq, Repr

/-- `StripePaymentMixin.add_payment_details(order_total,
payment_intent_id)`: add the payment source, then the "Purchase"
payment event, both with the order total including tax and the payment
intent id as reference. -/
def add_payment_details (order_total : OscarPrice) (payment_intent_id : String) :
    List PayAction :=
  [.addPaymentSource (mkPaymentSource order_total payment_intent_id),
   .addPaymentEvent PAYMENT_EVENT_PURCHASE order_total.incl_tax payment_intent_id]

/-- The Stripe side that `Facade.retrieve_payment_intent_id` consults:
`checkout.sessions.retrieve(csid).get("payment_intent")`. -/
structure StripeBackend where
  session_payment_intent : String → Option String

/-- `Facade.retrieve_payment_intent_id(checkout_session_id)`. -/
def retrieve_payment_intent_id (be : StripeBackend) (checkout_session_id : String) :
    Option String :=
  be.session_payment_intent checkout_session_id

/-- Remove a key from the HTTP session (Python `del session[k]`). -/
def eraseKey (sess : List (String × String)) (key : String) :
    List (String × String) :=
  sess.filter fun p => p.1 != key

/-- `TwoStepPaymentMixin.handle_payment(order_number, order_total)`:
read `stripe_session_id` from the HTTP session (`KeyError` if absent),
resolve it to a payment intent id (`capture_payment_intent` reaches
`retrieve_payment_intent(None, None)` and `ValueError` if the checkout
session has no payment intent), capture that payment intent, record the
payment details, and delete `stripe_session_id` from the session. -/
def TwoStep_handle_payment (be : StripeBackend) (sess : List (String × String))
    (order_total : OscarPrice) :
    Except PyError (List PayAction × List (String × String)) :=
  match List.lookup "stripe_session_id" sess with
  | none => .error .keyError
  | some checkout_session_id =>
    match retrieve_payment_intent_id be checkout_session_id with
    | none => .error .valueError
    | some payment_intent_id =>
      .ok (PayAction.capturePaymentIntent payment_intent_id ::
             add_payment_details order_total payment_intent_id,
           eraseKey sess "stripe_session_id")

/-- The database rows `Facade.capture_order_payment` reads. -/
structure OrderRec where
  number : ℕ
  order_id : ℕ
  user_email : String
  deriving DecidableEq, Repr

/-- A persisted `PaymentSource` row attached to an order. -/
structure SourceRow where
  order_number : ℕ
  data : PaymentSourceData
  date_captured : Option ℕ
  deriving DecidableEq, Repr

/-- Stripe SDK calls made by `capture_order_payment`, in program
order. -/
inductive CaptureAction where
  | retrievePaymentIntent (payment_intent_id : String)
  | modifyReceiptEmail (receipt_email : String)
  | capture (payment_intent_id : String)
  deriving DecidableEq, Repr

/-- `payment_source.date_captured = timezone.now(); payment_source.save()`
(order numbers are unique, so updating by order number updates the
fetched row). -/
def setDateCaptured (sources : List SourceRow) (order_number now : ℕ) :
    List SourceRow :=
  sources.map fun r =>
    if r.order_number = order_number then { r with date_captured := some now } else r

/-- `Facade.capture_order_payment(order_number)`: fetch the order and
its payment source (each raising `PaymentCaptureError` when absent),
read the payment intent id from `payment_source.reference`, retrieve
it, set the receipt email, capture it, and set the source's
`date_captured`. -/
def capture_order_payment (orders : List OrderRec) (sources : List SourceRow)
    (now order_number : ℕ) :
    Except PyError (List CaptureAction × List SourceRow) :=
  match orders.find? (fun o => o.number == order_number) with
  | none => .error (.paymentCaptureError "Order does not exist")
  | some order =>
    match sources.find? (fun r => r.order_number == order_number) with
    | none => .error (.paymentCaptureError "No Payment Source for Order")
    | some payment_source =>
      .ok ([.retrievePaymentIntent payment_source.data.reference,
            .modifyReceiptEmail order.user_email,
            .capture payment_source.data.reference],
           setDateCaptured sources order_number now)

/-- `OneStepPaymentMixin.submit(...)`: generate the order number, try
`handle_order_placement`, catch `UnableToPlaceOrder` (logged) and then
any other `Exception` (logged), and return the order number
regardless. -/
def OneStep_submit (order_number : ℕ)
    (handle_order_placement : Except PyError Unit) : Except PyError ℕ :=
  match handle_order_placement with
  | .ok _ => .ok order_number
  | .error .unableToPlaceOrder => .ok order_number
  | .error _ => .ok order_number

/- ----- webhook view (views.StripeSCAWebhookView) ----- -/

/-- The `data.object` of a `payment_intent` event: its `id` and the
session metadata echoed back by Stripe. -/
structure EventObject where
  id : String
  metadata_basket_id : ℕ
  metadata_shipping_method : String
  deriving DecidableEq, Repr

/-- A Stripe webhook event as returned by `construct_event`. -/
structure StripeEvent where
  type : String
  data_object : EventObject
  deriving DecidableEq, Repr

/-- The keyword arguments `Facade.construct_event` hands to the SDK's
`construct_event` (`secret` is the key added by `params.update`). -/
structure ConstructEventParams where
  payload : String
  sig_header : Option String
  secret : Option String
  deriving DecidableEq, Repr

/-- `Facade.construct_event(payload, sig_header)`: build the params
dict from the raw payload and header, add the configured endpoint
secret when it is truthy, and delegate to the SDK (`sdk`), performing
no check of its own. -/
def construct_event (s : Settings)
    (sdk : ConstructEventParams → Except PyError StripeEvent)
    (payload : String) (sig_header : Option String) :
    Except PyError StripeEvent :=
  let params : ConstructEventParams :=
    { payload := payload, sig_header := sig_header, secret := none }
  let params :=
    if truthyOptStr s.STRIPE_WEBHOOK_ENDPOINT_SECRET then
      { params with secret := s.STRIPE_WEBHOOK_ENDPOINT_SECRET }
    else params
  sdk params

/-- An incoming webhook request: `request.body` and
`request.headers.get("stripe-signature")`. -/
structure WebhookRequest where
  body : String
  stripe_signature : Option String
  deriving DecidableEq, Repr

/-- The arguments of the `submit_basket` call the webhook view makes
(from `OneStepPaymentMixin`). -/
structure SubmitBasketCall where
  basket : Option Basket
  shipping_method : Option ShippingMethod
  payment_intent_id : String
  deriving DecidableEq, Repr

/-- The view's outcome: the HTTP status and the `submit_basket` call it
performed, if any. -/
structure WebhookResponse where
  status : ℕ
  submitted : Option SubmitBasketCall
  deriving DecidableEq, Repr

/-- `StripePaymentMixin.load_frozen_basket(basket_id)`:
`Basket.objects.get(id=basket_id, status=Basket.FROZEN)`, `None` when
absent. -/
def load_frozen_basket (store : List Basket) (basket_id : ℕ) : Option Basket :=
  store.find? fun b => b.id == basket_id && b.status == "Frozen"

/-- `StripePaymentMixin.get_shipping_method_by_code(code, basket)`
over the shipping repository's methods (implicitly `None` when no code
matches). -/
def get_shipping_method_by_code (repo : List ShippingMethod) (code : String) :
    Option ShippingMethod :=
  repo.find? fun m => m.code == code

/-- `StripeSCAWebhookView.post(request)`: verify via
`Facade.construct_event` (only `SignatureVerificationError` is caught,
yielding status 400; any other exception propagates); on a
`payment_intent.succeeded` event, call `submit_basket` with the frozen
basket and shipping method resolved from the event metadata and the
event object's payment intent id; in every non-error case return
status 200. -/
def webhook_post (s : Settings)
    (sdk : ConstructEventParams → Except PyError StripeEvent)
    (store : List Basket) (repo : List ShippingMethod) (req : WebhookRequest) :
    Except PyError WebhookResponse :=
  match construct_event s sdk req.body req.stripe_signature with
  | .error .signatureVerificationError => .ok { status := 400, submitted := none }
  | .error e => .error e
  | .ok event =>
    if event.type = "payment_intent.succeeded" then
      .ok { status := 200
            submitted := some
              { basket := load_frozen_basket store event.data_object.metadata_basket_id
                shipping_method :=
                  get_shipping_method_by_code repo event.data_object.metadata_shipping_method
                payment_intent_id := event.data_object.id } }
    else
      .ok { status := 200, submitted := none }

/- ----- sample concrete inputs (used by witnesses) ----- -/

def sampleEvent : StripeEvent :=
  { type := "payment_intent.succeeded"
    data_object :=
      { id := "pi_1", metadata_basket_id := 7, metadata_shipping_method := "standard" } }

def sampleSdk : ConstructEventParams → Except PyError StripeEvent :=
  fun _ => .ok sampleEvent

def sampleWebhookRequest : WebhookRequest :=
  { body := "stripe-payload", stripe_signature := some "t=1,v1=abc" }

def sampleSettings : Settings :=
  { STRIPE_RETURN_URL_BASE := "https://shop.example.com"
    STRIPE_CANCEL_URL := none
    STRIPE_ORDER_CONFIRMATION_URL := none
    STRIPE_PAYMENT_STATUS_URL := none
    STRIPE_WAITING_FOR_PAYMENT_URL := none
    STRIPE_ORDER_PREVIEW_URL := none
    STRIPE_BYPASS_ORDER_PREVIEW := false
    STRIPE_WAIT_FOR_PAYMENT_CONFIRMATION := false
    STRIPE_ENABLE_TAX_COMPUTATION := true
    STRIPE_ENABLE_INVOICE_GENERATION := false
    STRIPE_INVOICE_DISPLAY_TAX_AMOUNTS := true
    STRIPE_USE_PRICES_API := true
    STRIPE_COMPRESS_TO_ONE_LINE_ITEM := false
    STRIPE_DEFAULT_PRODUCT_TAX_CODE := some "txcd_99999999"
    STRIPE_DEFAULT_SHIPPING_TAX_CODE := some "txcd_92010001"
    STRIPE_WEBHOOK_ENDPOINT_SECRET := some "whsec_test"
    STRIPE_INVOICE_DESCRIPTION := none
    STRIPE_INVOICE_FOOTER := none }

def samplePaymentItem : PaymentItem :=
  { title := "Widget"
    price_incl_tax := 5
    price_currency := "EUR"
    quantity := 2
    tax_code := some "txcd_11111111" }

def sampleShippingMethod : ShippingMethod :=
  { code := "standard"
    method_name := "Standard delivery"
    charge := { currency := "EUR", excl_tax := 4, incl_tax := 5 } }

def sampleBasket : Basket :=
  { id := 7
    status := "Frozen"
    all_lines :=
      [{ product := { title := "Widget" }
         price_currency := "EUR"
         price_breakdown := [(5, 4, 2)] }]
    shipping_required := true
    grouped_voucher_discounts := [] }

def sampleBackend : StripeBackend :=
  { session_payment_intent := fun c => if c = "cs_1" then some "pi_1" else none }

def samplePrice : OscarPrice := { currency := "EUR", excl_tax := 10, incl_tax := 12 }

def sampleOrder : OrderRec :=
  { number := 100001, order_id := 1, user_email := "jo@example.com" }

def sampleSourceRow : SourceRow :=
  { order_number := 100001
    data := mkPaymentSource samplePrice "pi_1"
    date_captured := none }

/- ----- helper lemmas ----- -/

theorem dedup_eq_singleton_of_all_eq {α : Type} [DecidableEq α]
    {l : List α} {c : α} (hne : l ≠ []) (h : ∀ x ∈ l, x = c) :
    l.dedup = [c] := by
  have hmemc : c ∈ l.dedup := by
    rw [List.mem_dedup]
    cases l with
    | nil => exact absurd rfl hne
    | cons a t => exact (h a (List.mem_cons_self a t)) ▸ List.mem_cons_self a t
  have hall : ∀ x ∈ l.dedup, x = c := fun x hx => h x (List.mem_dedup.mp hx)
  have hnd : l.dedup.Nodup := l.nodup_dedup
  cases hd : l.dedup with
  | nil => rw [hd] at hmemc; exact absurd hmemc (List.not_mem_nil c)
  | cons a t =>
    rw [hd] at hall hnd
    have ha : a = c := hall a (List.mem_cons_self a t)
    cases t with
    | nil => rw [ha]
    | cons b t' =>
      have hb : b = c := hall b (List.mem_cons_of_mem a (List.mem_cons_self b t'))
      have : a ∉ b :: t' := (List.nodup_cons.mp hnd).1
      exact absurd (by rw [ha, hb]; exact List.mem_cons_self c t') this

theorem two_le_dedup_length_iff {α : Type} [DecidableEq α] (l : List α) :
    2 ≤ l.dedup.length ↔ ∃ a ∈ l, ∃ b ∈ l, a ≠ b := by
  constructor
  · intro h2
    cases hd : l.dedup with
    | nil => rw [hd] at h2; simp at h2
    | cons a t =>
      cases t with
      | nil => rw [hd] at h2; simp at h2
      | cons b t' =>
        have hnd : l.dedup.Nodup := l.nodup_dedup
        rw [hd] at hnd
        have hab : a ≠ b := by
          intro hab
          exact (List.nodup_cons.mp hnd).1 (hab ▸ List.mem_cons_self b t')
        have hal : a ∈ l := List.mem_dedup.mp (hd ▸ List.mem_cons_self a _)
        have hbl : b ∈ l :=
          List.mem_dedup.mp (hd ▸ List.mem_cons_of_mem a (List.mem_cons_self b t'))
        exact ⟨a, hal, b, hbl, hab⟩
  · rintro ⟨a, ha, b, hb, hab⟩
    by_contra hlt
    push_neg at hlt
    interval_cases h : l.dedup.length
    · have : l.dedup = [] := List.length_eq_zero.mp h
      have : l = [] := (List.dedup_eq_nil l).mp this
      rw [this] at ha
      exact absurd ha (List.not_mem_nil a)
    · obtain ⟨c, hc⟩ := List.length_eq_one.mp h
      have ha' : a ∈ l.dedup := List.mem_dedup.mpr ha
      have hb' : b ∈ l.dedup := List.mem_dedup.mpr hb
      rw [hc] at ha' hb'
      simp at ha' hb'
      exact hab (ha'.trans hb'.symm)

/- ----- theorems for the claims ----- -/

theorem intTruncate_intCast (n : ℤ) : intTruncate (n : ℚ) = n := by
  unfold intTruncate
  split
  · exact Int.floor_intCast n
  · rw [← Int.cast_neg, Int.floor_intCast]; ring

theorem quantizeHalfUp_mul_pow (exp : ℕ) (q : ℚ) :
    quantizeHalfUp exp q * 10 ^ exp = (roundHalfUpInt (q * 10 ^ exp) : ℚ) := by
  unfold quantizeHalfUp
  field_simp

/-- C10: `_convert_to_cents` returns, as an exact integer, the price
rounded half-up to a whole unit when the uppercased currency is
zero-decimal, and otherwise 100 times the price rounded half-up to two
decimal places; the equalities hold in `ℚ`, so the `int()` truncation
loses nothing. -/
theorem convert_to_cents_spec (price : ℚ) (currency : String) :
    (convert_to_cents price currency : ℚ) =
      (if currency.toUpper ∈ ZERO_DECIMAL_CURRENCIES then quantizeHalfUp 0 price
       else 100 * quantizeHalfUp 2 price) := by
  unfold convert_to_cents
  split
  · have h0 : quantizeHalfUp 0 price = ((roundHalfUpInt price : ℤ) : ℚ) := by
      unfold quantizeHalfUp; norm_num
    rw [h0, intTruncate_intCast]
  · have h2 := quantizeHalfUp_mul_pow 2 price
    norm_num at h2
    calc ((intTruncate (quantizeHalfUp 2 price * 100) : ℤ) : ℚ)
        = ((roundHalfUpInt (price * 100) : ℤ) : ℚ) := by rw [h2, intTruncate_intCast]
      _ = 100 * quantizeHalfUp 2 price := by rw [← h2]; ring

/-- C9: `_choose_tax_code` returns the default product tax code only for
an empty item list; for a non-empty list on which every item carries the
same tax code (also when that code is `None`) it returns that common
code; and it raises `MultipleTaxCodesInBasketError` exactly when two
items carry distinct tax codes. -/
theorem choose_tax_code_spec (s : Settings) (items : List PaymentItem) :
    (items = [] → choose_tax_code s items = .ok (get_default_product_tax_code s)) ∧
    (∀ c : Option String, items ≠ [] → (∀ i ∈ items, i.tax_code = c) →
      choose_tax_code s items = .ok c) ∧
    (choose_tax_code s items = .error .multipleTaxCodesInBasket ↔
      ∃ i ∈ items, ∃ j ∈ items, i.tax_code ≠ j.tax_code) := by
  refine ⟨?_, ?_, ?_⟩
  · rintro rfl; rfl
  · intro c hne hall
    have hl : items.map PaymentItem.tax_code ≠ [] :=
      fun h => hne (List.eq_nil_of_map_eq_nil h)
    have hd := dedup_eq_singleton_of_all_eq hl (by
      intro x hx
      obtain ⟨i, hi, rfl⟩ := List.mem_map.mp hx
      exact hall i hi)
    unfold choose_tax_code
    rw [hd]
  · have key : (∃ x ∈ items.map PaymentItem.tax_code,
        ∃ y ∈ items.map PaymentItem.tax_code, x ≠ y) ↔
        ∃ i ∈ items, ∃ j ∈ items, i.tax_code ≠ j.tax_code := by
      constructor
      · rintro ⟨x, hx, y, hy, hxy⟩
        obtain ⟨i, hi, rfl⟩ := List.mem_map.mp hx
        obtain ⟨j, hj, rfl⟩ := List.mem_map.mp hy
        exact ⟨i, hi, j, hj, hxy⟩
      · rintro ⟨i, hi, j, hj, hij⟩
        exact ⟨_, List.mem_map_of_mem _ hi, _, List.mem_map_of_mem _ hj, hij⟩
    rw [← key, ← two_le_dedup_length_iff]
    unfold choose_tax_code
    rcases hd : (items.map PaymentItem.tax_code).dedup with _ | ⟨a, _ | ⟨b, t⟩⟩ <;> simp

/-- C3: the protocol choice is one two-branch conditional on
`STRIPE_BYPASS_ORDER_PREVIEW`: the capture method placed in the session
parameters is `"manual"` exactly when the setting is false (and then
the success URL is the order-preview URL for the basket), `"automatic"`
exactly when it is true (and then the success URL is the
waiting-for-payment URL when `STRIPE_WAIT_FOR_PAYMENT_CONFIRMATION` is
set, else the order-confirmation URL). -/
theorem build_session_params_capture_and_success_url
    (s : Settings) (rev : String → List (String × ℕ) → String) (f : FacadeState)
    (basket : Basket) (email : String) (items : List PreparedLineItem)
    (md : SessionMetadata) :
    ((build_session_params s rev f basket email items md).2.pi_capture_method =
        CAPTURE_METHOD_MANUAL ↔ s.STRIPE_BYPASS_ORDER_PREVIEW = false) ∧
    ((build_session_params s rev f basket email items md).2.pi_capture_method =
        CAPTURE_METHOD_AUTOMATIC ↔ s.STRIPE_BYPASS_ORDER_PREVIEW = true) ∧
    (build_session_params s rev f basket email items md).2.success_url =
      (if s.STRIPE_BYPASS_ORDER_PREVIEW = false then get_order_preview_url s rev basket
       else if s.STRIPE_WAIT_FOR_PAYMENT_CONFIRMATION then
         get_waiting_for_payment_url s rev
       else get_order_confirmation_url s rev) := by
  cases hb : s.STRIPE_BYPASS_ORDER_PREVIEW <;>
    simp [build_session_params, get_capture_method, get_success_url, hb,
      CAPTURE_METHOD_MANUAL, CAPTURE_METHOD_AUTOMATIC]

/-- C7: the facade's translation is stateless per call:
`build_session_params`, `build_session_metadata` and
`prepare_line_items` return the facade instance unchanged, and their
results do not depend on the instance at all — two calls with equal
arguments under equal settings return equal results. -/
theorem facade_translation_stateless
    (s : Settings) (rev : String → List (String × ℕ) → String)
    (f g : FacadeState) (basket : Basket) (email : String)
    (items : List PreparedLineItem) (md : SessionMetadata)
    (shipping_method : ShippingMethod) (raw : List PaymentItem)
    (total : OscarPrice) :
    ((build_session_params s rev f basket email items md).1 = f ∧
     (build_session_metadata f basket shipping_method items).1 = f ∧
     (prepare_line_items s f raw total).1 = f) ∧
    ((build_session_params s rev f basket email items md).2 =
       (build_session_params s rev g basket email items md).2 ∧
     (build_session_metadata f basket shipping_method items).2 =
       (build_session_metadata g basket shipping_method items).2 ∧
     (prepare_line_items s f raw total).2 =
       (prepare_line_items s g raw total).2) :=
  ⟨⟨rfl, rfl, rfl⟩, rfl, rfl, rfl⟩

/-- Witness for C9 at a concrete one-item basket. -/
theorem choose_tax_code_spec_witness :
    choose_tax_code sampleSettings [samplePaymentItem] = .ok (some "txcd_11111111") :=
  (choose_tax_code_spec sampleSettings [samplePaymentItem]).2.1 (some "txcd_11111111")
    (by simp)
    (by intro i hi; rw [List.mem_singleton] at hi; rw [hi]; rfl)

/-- C6 (code bug): on a basket that requires shipping with a shipping
method given, `get_raw_line_items` raises `AttributeError` (the source
reads `self.shipping_method.name`, an attribute `Facade` never sets)
instead of appending the shipping line item; the per-line translation
itself works, as the run without a shipping method shows. -/
theorem get_raw_line_items_shipping_attribute_error :
    get_raw_line_items sampleSettings sampleBasket (some sampleShippingMethod) =
      .error .attributeError ∧
    get_raw_line_items sampleSettings sampleBasket none =
      .ok [{ title := "Widget"
             price_incl_tax := 5
             price_currency := "EUR"
             quantity := 2
             tax_code := some "txcd_99999999" }] := by
  constructor <;> rfl

theorem lookup_eraseKey (k : String) (sess : List (String × String)) :
    List.lookup k (eraseKey sess k) = none := by
  induction sess with
  | nil => rfl
  | cons p t ih =>
    simp only [eraseKey, List.filter_cons] at ih ⊢
    by_cases h : p.1 = k
    · simp only [h, bne_self_eq_false]
      exact ih
    · have hb : (p.1 != k) = true := bne_iff_ne.mpr h
      simp only [hb, if_true, List.lookup]
      have : (k == p.1) = false := beq_eq_false_iff_ne.mpr (Ne.symm h)
      rw [this]
      exact ih

/-- C4: in the two-step protocol `handle_payment` reads
`stripe_session_id` from the HTTP session, resolves it to a payment
intent id, captures that intent first, then records the payment details
with that id as reference, and deletes `stripe_session_id` from the
session: the trace starts with the capture and is followed by the
source/event additions of `add_payment_details`. -/
theorem handle_payment_captures_then_records
    (be : StripeBackend) (sess : List (String × String)) (total : OscarPrice)
    (csid pid : String)
    (hs : List.lookup "stripe_session_id" sess = some csid)
    (hp : be.session_payment_intent csid = some pid) :
    TwoStep_handle_payment be sess total =
      .ok (PayAction.capturePaymentIntent pid :: add_payment_details total pid,
           eraseKey sess "stripe_session_id") ∧
    List.lookup "stripe_session_id" (eraseKey sess "stripe_session_id") = none ∧
    (mkPaymentSource total pid).reference = pid := by
  refine ⟨?_, lookup_eraseKey _ _, rfl⟩
  unfold TwoStep_handle_payment retrieve_payment_intent_id
  simp only [hs, hp]

/-- Witness for C4 at a concrete session and backend. -/
theorem handle_payment_witness :
    TwoStep_handle_payment sampleBackend [("stripe_session_id", "cs_1")] samplePrice =
      .ok (PayAction.capturePaymentIntent "pi_1" :: add_payment_details samplePrice "pi_1",
           eraseKey [("stripe_session_id", "cs_1")] "stripe_session_id") :=
  (handle_payment_captures_then_records sampleBackend
    [("stripe_session_id", "cs_1")] samplePrice "cs_1" "pi_1"
    (by decide) (by decide)).1

theorem find?_setDateCaptured (sources : List SourceRow) (n now : ℕ)
    (row : SourceRow)
    (h : sources.find? (fun r => r.order_number == n) = some row) :
    (setDateCaptured sources n now).find? (fun r => r.order_number == n) =
      some { row with date_captured := some now } := by
  induction sources with
  | nil => simp at h
  | cons r t ih =>
    by_cases hr : r.order_number = n
    · rw [List.find?_cons_of_pos _ (by simpa using hr)] at h
      injection h with h
      subst h
      simp only [setDateCaptured, List.map_cons, if_pos hr]
      exact List.find?_cons_of_pos _ (by simpa using hr)
    · rw [List.find?_cons_of_neg _ (by simpa using hr)] at h
      have := ih h
      simp only [setDateCaptured, List.map_cons, if_neg hr]
      rw [List.find?_cons_of_neg _ (by simpa using hr)]
      exact this

/-- C5: the reference string round-trips: `add_payment_details` records
a payment source whose reference is the payment intent id and whose
allocated and debited amounts are the tax-inclusive order total, plus a
"Purchase" event with the same amount and reference; and
`capture_order_payment` reads exactly that stored reference back,
retrieves and captures it, and sets the source's `date_captured`. -/
theorem payment_reference_roundtrip (total : OscarPrice) (pid : String)
    (orders : List OrderRec) (sources : List SourceRow) (n now : ℕ)
    (order : OrderRec) (row : SourceRow)
    (ho : orders.find? (fun o => o.number == n) = some order)
    (hs : sources.find? (fun r => r.order_number == n) = some row)
    (hd : row.data = mkPaymentSource total pid) :
    add_payment_details total pid =
      [.addPaymentSource (mkPaymentSource total pid),
       .addPaymentEvent PAYMENT_EVENT_PURCHASE total.incl_tax pid] ∧
    (mkPaymentSource total pid).reference = pid ∧
    (mkPaymentSource total pid).amount_allocated = total.incl_tax ∧
    (mkPaymentSource total pid).amount_debited = total.incl_tax ∧
    capture_order_payment orders sources now n =
      .ok ([.retrievePaymentIntent pid,
            .modifyReceiptEmail order.user_email,
            .capture pid],
           setDateCaptured sources n now) ∧
    (setDateCaptured sources n now).find? (fun r => r.order_number == n) =
      some { row with date_captured := some now } := by
  refine ⟨rfl, rfl, rfl, rfl, ?_, find?_setDateCaptured sources n now row hs⟩
  unfold capture_order_payment
  simp only [ho, hs, hd, mkPaymentSource]

/-- Witness for C5 at a concrete order, source row and timestamp. -/
theorem payment_reference_roundtrip_witness :
    capture_order_payment [sampleOrder] [sampleSourceRow] 1700000000 100001 =
      .ok ([.retrievePaymentIntent "pi_1",
            .modifyReceiptEmail "jo@example.com",
            .capture "pi_1"],
           setDateCaptured [sampleSourceRow] 100001 1700000000) :=
  (payment_reference_roundtrip samplePrice "pi_1" [sampleOrder] [sampleSourceRow]
    100001 1700000000 sampleOrder sampleSourceRow
    (by decide) (by decide) rfl).2.2.2.2.1

/-- C8: `OneStepPaymentMixin.submit` always returns the generated order
number and never propagates an exception of `handle_order_placement`
(`UnableToPlaceOrder` and every other exception are caught and logged),
so its result cannot distinguish a failed placement from a successful
one. -/
theorem onestep_submit_total (order_number : ℕ)
    (p q : Except PyError Unit) :
    OneStep_submit order_number p = .ok order_number ∧
    OneStep_submit order_number p = OneStep_submit order_number q := by
  have hp : OneStep_submit order_number p = .ok order_number := by
    cases p with
    | ok _ => rfl
    | error e => cases e <;> rfl
  have hq : OneStep_submit order_number q = .ok order_number := by
    cases q with
    | ok _ => rfl
    | error e => cases e <;> rfl
  exact ⟨hp, hp.trans hq.symm⟩

/-- C1: for every webhook request whose payload passes signature
verification, the view performs the `submit_basket` order placement
(with the frozen basket and shipping method resolved from the event
metadata and the event's payment intent id) exactly when the event type
is `"payment_intent.succeeded"`, and returns status 200 for every
verified event type. -/
theorem webhook_post_places_order_iff_succeeded (s : Settings)
    (sdk : ConstructEventParams → Except PyError StripeEvent)
    (store : List Basket) (repo : List ShippingMethod) (req : WebhookRequest)
    (event : StripeEvent)
    (hok : construct_event s sdk req.body req.stripe_signature = .ok event) :
    webhook_post s sdk store repo req =
      .ok { status := 200
            submitted :=
              if event.type = "payment_intent.succeeded" then
                some
                  { basket := load_frozen_basket store event.data_object.metadata_basket_id
                    shipping_method :=
                      get_shipping_method_by_code repo
                        event.data_object.metadata_shipping_method
                    payment_intent_id := event.data_object.id }
              else none } := by
  unfold webhook_post
  simp only [hok]
  by_cases ht : event.type = "payment_intent.succeeded" <;> simp [ht]

/-- Witness for C1: a verified `payment_intent.succeeded` event leads
to a `submit_basket` call with the matching frozen basket, shipping
method and payment intent id, under status 200. -/
theorem webhook_post_places_order_witness :
    webhook_post sampleSettings sampleSdk [sampleBasket] [sampleShippingMethod]
        sampleWebhookRequest =
      .ok { status := 200
            submitted := some
              { basket := some sampleBasket
                shipping_method := some sampleShippingMethod
                payment_intent_id := "pi_1" } } := by
  have h := webhook_post_places_order_iff_succeeded sampleSettings sampleSdk
    [sampleBasket] [sampleShippingMethod] sampleWebhookRequest sampleEvent (by rfl)
  exact h

/-- C2: the view passes the raw request body and the
`stripe-signature` header unmodified to the SDK's `construct_event`,
adding the configured endpoint secret when it is set; and the view
returns status 400 (with no order placed) precisely when
`construct_event` raises `SignatureVerificationError`. -/
theorem webhook_post_signature_delegation (s : Settings)
    (sdk : ConstructEventParams → Except PyError StripeEvent)
    (store : List Basket) (repo : List ShippingMethod) (req : WebhookRequest) :
    construct_event s sdk req.body req.stripe_signature =
      sdk { payload := req.body
            sig_header := req.stripe_signature
            secret :=
              if truthyOptStr s.STRIPE_WEBHOOK_ENDPOINT_SECRET then
                s.STRIPE_WEBHOOK_ENDPOINT_SECRET
              else none } ∧
    (webhook_post s sdk store repo req = .ok { status := 400, submitted := none } ↔
      construct_event s sdk req.body req.stripe_signature =
        .error .signatureVerificationError) := by
  constructor
  · unfold construct_event
    by_cases h : truthyOptStr s.STRIPE_WEBHOOK_ENDPOINT_SECRET <;> simp [h]
  · unfold webhook_post
    cases hce : construct_event s sdk req.body req.stripe_signature with
    | ok event =>
      by_cases ht : event.type = "payment_intent.succeeded" <;> simp [ht]
    | error e =>
      cases e <;> simp

end OscarStripeSCA
